import Mathlib

/-!
Verification development for the Bitcoin sentiment/price correlation engine
(`src/analysis/correlation_analyzer.py`).

Modelling conventions:
* Calendar dates ("YYYY-MM-DD" strings, whose lexicographic order is the
  chronological order) are modelled as natural numbers.
* Python floats are modelled by rational numbers; where the code can produce
  non-finite float values (NaN from 0/0, infinities from division by zero)
  the derived columns use the type `FVal` with explicit `nan` / `posInf` /
  `negInf` constructors.  `Option ℚ` models a float that is either finite
  (`some q`) or NaN (`none`) where infinities cannot arise.
* Raised Python exceptions are modelled by `Except String`; a returned
  "error dictionary" of `analyze_leading_indicator` is the `LeadingOutcome.err`
  constructor, distinct from a raised exception.
* The numeric output of `scipy.stats.pearsonr` on finite, non-degenerate
  input, and Python float formatting (`%.1f`, `%.3f`, `%.4f`), are opaque to
  every claim considered here; they are supplied as an `Oracle` parameter and
  all theorems hold for every oracle.  `scipy.stats.pearsonr` on an input
  with zero variance (or a non-finite value) returns `(nan, nan)`, which the
  model represents concretely.
-/

namespace BitcoinSentiment

/-- Calendar date, canonically a "YYYY-MM-DD" string; lexicographic order on
such strings is the numeric order modelled here. -/
abbrev Date := ℕ

/-- A Python float value as it appears in a derived change column: a finite
value, an infinity produced by division by zero, or NaN produced by 0/0 (or a
missing shifted value). -/
inductive FVal where
  | real (q : ℚ)
  | posInf
  | negInf
  | nan
deriving DecidableEq, Repr

/-- `pandas.DataFrame.dropna` drops exactly the NaN rows; infinities survive. -/
def FVal.isNaN : FVal → Bool
  | .nan => true
  | _ => false

/-- The comparison `v > 0` on floats: NaN compares false. -/
def FVal.posB : FVal → Bool
  | .real q => decide (0 < q)
  | .posInf => true
  | .negInf => false
  | .nan => false

/-- Finite float test (`numpy.isfinite`). -/
def FVal.isFinite : FVal → Bool
  | .real _ => true
  | _ => false

/-- The rational carried by a finite float value (junk 0 otherwise). -/
def FVal.toQ : FVal → ℚ
  | .real q => q
  | _ => 0

/-- One element of `price_data`: a `{date, price}` record. -/
structure PricePoint where
  date : Date
  price : ℚ
deriving DecidableEq, Repr

/-- The `published_at` field of a sentiment record, abstracted to the facts
the code branches on: absent (`item.get` yields `''`), a string without `'T'`
(parsed by `strptime`, whose `ValueError` is caught), a string containing
`'T'` (parsed by `fromisoformat`, whose `ValueError` is NOT caught), or a
non-string object (whose `strftime` call raises `AttributeError` unless it is
date-like).  The `Option Date` payload is the calendar day the applicable
parse yields, `none` when that parse raises. -/
inductive TimestampField where
  | absent
  | strNoT (parsed : Option Date)
  | strT (parsed : Option Date)
  | nonString (strf : Option Date)
deriving DecidableEq, Repr

/-- A sentiment headline record.  `sentiment_score = none` models a dict with
no `'sentiment_score'` key, for which `item.get('sentiment_score', 0)`
substitutes `0`. -/
structure SentimentRecord where
  published_at : TimestampField
  sentiment_score : Option ℚ
deriving DecidableEq, Repr

/-- An element of `sentiment_data`: either a dict or a non-dict item (the
latter is skipped by the `isinstance(item, dict)` check). -/
inductive SentimentItem where
  | dict (r : SentimentRecord)
  | nondict
deriving DecidableEq, Repr

/-- The calendar day a timestamp field parses to, when its parse succeeds. -/
def tsDate : TimestampField → Option Date
  | .absent => none
  | .strNoT p => p
  | .strT p => p
  | .nonString p => p

/-- One row addition of `_prepare_sentiment_dataframe`'s record loop:
`.ok none` = the record is skipped (`continue` or non-dict),
`.ok (some (d, s))` = a `{date, sentiment_score}` row is appended,
`.error` = the loop raises (uncaught `ValueError` from `fromisoformat` on a
`'T'`-containing string, or `AttributeError` on a non-date non-string). -/
def parseSentimentItem : SentimentItem → Except String (Option (Date × ℚ))
  | .nondict => .ok none
  | .dict r =>
    match r.published_at with
    | .absent => .ok none
    | .strNoT none => .ok none
    | .strNoT (some d) => .ok (some (d, r.sentiment_score.getD 0))
    | .strT none => .error "ValueError: fromisoformat"
    | .strT (some d) => .ok (some (d, r.sentiment_score.getD 0))
    | .nonString none => .error "AttributeError: strftime"
    | .nonString (some d) => .ok (some (d, r.sentiment_score.getD 0))

/-- The record-collection loop of `_prepare_sentiment_dataframe` (lines
288-310): builds the `records` list in input order, propagating any raised
exception. -/
def collectRecords : List SentimentItem → Except String (List (Date × ℚ))
  | [] => .ok []
  | it :: rest =>
    match parseSentimentItem it with
    | .error e => .error e
    | .ok r =>
      match collectRecords rest with
      | .error e => .error e
      | .ok rs => .ok (match r with | none => rs | some x => x :: rs)

/-- A row of the daily sentiment frame produced by the
`groupby('date').agg(mean, count)` step. -/
structure DailySentimentPoint where
  date : Date
  daily_avg_sentiment : ℚ
  headline_count : ℕ
deriving DecidableEq, Repr

/-- The `groupby('date')` aggregation: one row per distinct date, dates in
ascending order (pandas sorts group keys), `mean` and `count` of that date's
scores. -/
def dailyAggregate (recs : List (Date × ℚ)) : List DailySentimentPoint :=
  (((recs.map Prod.fst).dedup).insertionSort (· ≤ ·)).map fun d =>
    let scores := (recs.filter (fun r => r.1 = d)).map Prod.snd
    { date := d
      daily_avg_sentiment := scores.sum / (scores.length : ℚ)
      headline_count := scores.length }

/-- `_prepare_sentiment_dataframe`: empty input or an all-skipped input gives
an empty (column-less) frame, modelled by the empty list; otherwise the daily
aggregation of the collected records.  An exception raised while parsing a
record propagates. -/
def prepare_sentiment_dataframe (data : List SentimentItem) :
    Except String (List DailySentimentPoint) :=
  match data with
  | [] => .ok []
  | _ =>
    match collectRecords data with
    | .error e => .error e
    | .ok recs => .ok (dailyAggregate recs)

/-- `pd.merge(sentiment_df, right, on='date', how='inner')` for a right frame
with unique dates: keeps the left rows whose date occurs on the right, in left
order, pairing each with its right value. -/
def innerJoin {β : Type} (sdf : List DailySentimentPoint) (right : List (Date × β)) :
    List (DailySentimentPoint × β) :=
  sdf.filterMap fun s => (right.find? (fun q => q.1 = s.date)).map fun q => (s, q.2)

/-- `sort_values('date')`, modelled by a sort on the date key (the inputs the
engine is specified for carry at most one point per date, so stability and
tie order are immaterial). -/
def sortByDate (price : List PricePoint) : List PricePoint :=
  price.insertionSort (fun a b => a.date ≤ b.date)

/-- Zero-variance test: a list whose values are all equal. -/
def allEqual : List ℚ → Bool
  | [] => true
  | x :: xs => xs.all (· = x)

/-- The opaque numeric facts the engine consumes: `scipy.stats.pearsonr`'s
value on finite non-degenerate input (`rfun`, `pfun`) and Python float
formatting. -/
structure Oracle where
  rfun : List ℚ → List ℚ → ℚ
  pfun : List ℚ → List ℚ → ℚ
  fmt1 : ℚ → String
  fmt3 : ℚ → String
  fmt4 : ℚ → String

/-- A concrete oracle, used to evaluate the model on closed inputs. -/
def oracle0 : Oracle :=
  { rfun := fun _ _ => 0, pfun := fun _ _ => 0
    fmt1 := fun _ => "", fmt3 := fun _ => "", fmt4 := fun _ => "" }

/-- `scipy.stats.pearsonr(xs, ys)`: on an input containing a non-finite value
or on a constant (zero-variance) input it yields `(nan, nan)` (with a
warning, not an exception); otherwise some finite pair, represented by the
oracle. -/
def pearsonr (o : Oracle) (xs : List ℚ) (ys : List FVal) : Option ℚ × Option ℚ :=
  if ys.any (fun v => !v.isFinite) then (none, none)
  else
    let ysq := ys.map FVal.toQ
    if allEqual xs || allEqual ysq then (none, none)
    else (some (o.rfun xs ysq), some (o.pfun xs ysq))

/-- The float comparison `p < threshold`: false when `p` is NaN. -/
def oLt (p : Option ℚ) (t : ℚ) : Bool :=
  match p with
  | none => false
  | some q => decide (q < t)

/-- Float formatting applied to a possibly-NaN value (`'%f' % nan = 'nan'`). -/
def fmtO (f : ℚ → String) (p : Option ℚ) : String :=
  match p with
  | none => "nan"
  | some q => f q

/-- The result record returned by the two correlation entry points. -/
structure CorrelationResult where
  correlation_coefficient : Option ℚ
  p_value : Option ℚ
  is_significant : Bool
  sample_size : ℕ
  interpretation : String
deriving DecidableEq, Repr

/-- The strength bucket of `_interpret_correlation` (lines 340-348), on the
possibly-NaN coefficient: every comparison with NaN is false, so NaN falls
through to "very weak". -/
def strengthOf (r : Option ℚ) : String :=
  match r with
  | none => "very weak"
  | some q =>
    if (7 : ℚ)/10 ≤ |q| then "strong"
    else if (2 : ℚ)/5 ≤ |q| then "moderate"
    else if (1 : ℚ)/5 ≤ |q| then "weak"
    else "very weak"

/-- The direction word of `_interpret_correlation` (line 350):
`"positive" if correlation > 0 else "negative"`; NaN > 0 is false. -/
def directionOf (r : Option ℚ) : String :=
  match r with
  | none => "negative"
  | some q => if 0 < q then "positive" else "negative"

/-- `str.capitalize()` restricted to the four strength bucket words. -/
def capitalizeStr (s : String) : String :=
  if s = "strong" then "Strong"
  else if s = "moderate" then "Moderate"
  else if s = "weak" then "Weak"
  else if s = "very weak" then "Very weak"
  else s

/-- The context sentence of `_interpret_correlation` (lines 353-362). -/
def meaningOf (r : Option ℚ) (analysis_type : String) : String :=
  if analysis_type = "price_changes" then
    if (match r with | none => false | some q => decide (0 < q)) then
      "Higher sentiment scores coincide with positive price movements"
    else
      "Higher sentiment scores coincide with negative price movements"
  else
    if (match r with | none => false | some q => decide (0 < q)) then
      "Higher sentiment occurs on days with higher Bitcoin prices"
    else
      "Higher sentiment occurs on days with lower Bitcoin prices"

/-- `_interpret_correlation` (lines 327-378). -/
def interpret_correlation (o : Oracle) (r p : Option ℚ) (is_significant : Bool)
    (analysis_type : String) : String :=
  if is_significant then
    "Statistically significant " ++ strengthOf r ++ " " ++ directionOf r ++
      " correlation (r=" ++ fmtO o.fmt3 r ++ ", p=" ++ fmtO o.fmt4 p ++ "). " ++
      meaningOf r analysis_type ++ ". This relationship is unlikely due to random chance."
  else
    capitalizeStr (strengthOf r) ++ " " ++ directionOf r ++ " correlation (r=" ++
      fmtO o.fmt3 r ++ "), but not statistically significant (p=" ++ fmtO o.fmt4 p ++
      "). Could be due to random chance."

/-- `_empty_result` (lines 380-388): note the hard-coded `sample_size=0`. -/
def empty_result (reason : String) : CorrelationResult :=
  { correlation_coefficient := some 0
    p_value := some 1
    is_significant := false
    sample_size := 0
    interpretation := "Analysis not possible: " ++ reason }

/-- The body of `calculate_daily_correlation` after the sentiment frame is
built (lines 90-127). -/
def dailyBody (o : Oracle) (threshold : ℚ) (sdf : List DailySentimentPoint)
    (price : List PricePoint) : CorrelationResult :=
  if sdf.isEmpty || price.isEmpty then empty_result "Insufficient data provided"
  else
    let merged := innerJoin sdf (price.map fun p => (p.date, p.price))
    if merged.length < 3 then
      empty_result ("Only " ++ toString merged.length ++ " overlapping days found")
    else
      let rp := pearsonr o (merged.map fun m => m.1.daily_avg_sentiment)
        (merged.map fun m => FVal.real m.2)
      let sig := oLt rp.2 threshold
      { correlation_coefficient := rp.1
        p_value := rp.2
        is_significant := sig
        sample_size := merged.length
        interpretation := interpret_correlation o rp.1 rp.2 sig "daily_prices" }

/-- `calculate_daily_correlation` (lines 62-127). -/
def calculate_daily_correlation (o : Oracle) (threshold : ℚ)
    (sentiment_data : List SentimentItem) (price_data : List PricePoint) :
    Except String CorrelationResult :=
  match prepare_sentiment_dataframe sentiment_data with
  | .error e => .error e
  | .ok sdf => .ok (dailyBody o threshold sdf price_data)

/-- One step of `price.pct_change() * 100` on consecutive prices: the float
value of `(cur - prev) / prev * 100`, including the IEEE division-by-zero
cases. -/
def pctChange (prev cur : ℚ) : FVal :=
  if prev = 0 then
    (if cur = 0 then .nan else if 0 < cur then .posInf else .negInf)
  else .real ((cur - prev) / prev * 100)

/-- Lines 156-160 of `calculate_price_change_correlation`: sort by date,
compute `pct_change()*100`, drop NaN rows (the first row, whose change is
NaN by construction, is never materialised here; 0/0 rows are filtered). -/
def priceChangeRows (price : List PricePoint) : List (Date × FVal) :=
  let s := sortByDate price
  ((s.zip s.tail).map fun ab => (ab.2.date, pctChange ab.1.price ab.2.price)).filter
    fun m => !m.2.isNaN

/-- The body of `calculate_price_change_correlation` once the frames exist
(lines 152-187); reached only when the sentiment frame has columns. -/
def priceChangeBody (o : Oracle) (threshold : ℚ) (sdf : List DailySentimentPoint)
    (price : List PricePoint) : CorrelationResult :=
  let merged := innerJoin sdf (priceChangeRows price)
  if merged.length < 3 then
    empty_result ("Only " ++ toString merged.length ++ " overlapping days")
  else
    let rp := pearsonr o (merged.map fun m => m.1.daily_avg_sentiment)
      (merged.map fun m => m.2)
    let sig := oLt rp.2 threshold
    { correlation_coefficient := rp.1
      p_value := rp.2
      is_significant := sig
      sample_size := merged.length
      interpretation := interpret_correlation o rp.1 rp.2 sig "price_changes" }

/-- `calculate_price_change_correlation` (lines 129-187).  When the prepared
sentiment frame is empty it has no `'date'` column and
`pd.merge(..., on='date')` raises `KeyError` (there is no emptiness guard in
this function, unlike `calculate_daily_correlation`). -/
def calculate_price_change_correlation (o : Oracle) (threshold : ℚ)
    (sentiment_data : List SentimentItem) (price_data : List PricePoint) :
    Except String CorrelationResult :=
  match prepare_sentiment_dataframe sentiment_data with
  | .error e => .error e
  | .ok sdf =>
    if price_data.length < 2 then .ok (empty_result "Need at least 2 days of price data")
    else if sdf.isEmpty then .error "KeyError: date"
    else .ok (priceChangeBody o threshold sdf price_data)

/-- The float value of `(future - price) / price * 100` for one row, with
the IEEE cases for a zero current price. -/
def futureChange (cur fut : ℚ) : FVal :=
  if cur = 0 then
    (if fut = 0 then .nan else if 0 < fut then .posInf else .negInf)
  else .real ((fut - cur) / cur * 100)

/-- `shift(-lag)` pairing (lines 223-226): each row against the row `lag`
positions later; rows with no such partner get NaN.  The second argument is
the list of future partners (`s.drop lag` at the top call). -/
def laggedAux : List PricePoint → List PricePoint → List (Date × FVal)
  | [], _ => []
  | p :: rest, [] => (p.date, FVal.nan) :: laggedAux rest []
  | p :: rest, f :: fs => (p.date, futureChange p.price f.price) :: laggedAux rest fs

/-- The `future_change_pct` column over the date-sorted price frame. -/
def laggedChangeRows (s : List PricePoint) (lag : ℕ) : List (Date × FVal) :=
  laggedAux s (s.drop lag)

/-- The dict returned by `analyze_leading_indicator`: either the
`{'error': ...}` dict or the full result dict. -/
structure LeadingIndicatorResult where
  lag_days : ℕ
  correlation_coefficient : Option ℚ
  p_value : Option ℚ
  is_significant : Bool
  sample_size : ℕ
  prediction_accuracy : ℚ
  predictions_correct : ℕ
  total_predictions : ℕ
  interpretation : String
deriving DecidableEq, Repr

inductive LeadingOutcome where
  | err (msg : String)
  | ok (r : LeadingIndicatorResult)
deriving DecidableEq, Repr

/-- The per-row correct-prediction test of lines 250-255: bullish iff the
daily average sentiment exceeds 0.1, correct iff bullishness agrees with
`future_change_pct > 0`. -/
def correctPrediction (m : DailySentimentPoint × FVal) : Bool :=
  (decide ((1 : ℚ)/10 < m.1.daily_avg_sentiment) && m.2.posB) ||
    (!decide ((1 : ℚ)/10 < m.1.daily_avg_sentiment) && !m.2.posB)

/-- Line 257: `(predictions_correct / total_predictions) * 100 if
total_predictions > 0 else 0`. -/
def predictionAccuracy (correct total : ℕ) : ℚ :=
  if 0 < total then ((correct : ℚ) / (total : ℚ)) * 100 else 0

/-- The body of `analyze_leading_indicator` after the merge (lines 229-274). -/
def leadingBody (o : Oracle) (threshold : ℚ) (sdf : List DailySentimentPoint)
    (price : List PricePoint) (lag : ℕ) : LeadingOutcome :=
  let merged := (innerJoin sdf (laggedChangeRows (sortByDate price) lag)).filter
    fun m => !m.2.isNaN
  if merged.length < 3 then
    .err ("Only " ++ toString merged.length ++ " data points available")
  else
    let rp := pearsonr o (merged.map fun m => m.1.daily_avg_sentiment)
      (merged.map fun m => m.2)
    let sig := oLt rp.2 threshold
    let correct := merged.countP correctPrediction
    let total := merged.length
    let acc : ℚ := predictionAccuracy correct total
    .ok
      { lag_days := lag
        correlation_coefficient := rp.1
        p_value := rp.2
        is_significant := sig
        sample_size := total
        prediction_accuracy := acc
        predictions_correct := correct
        total_predictions := total
        interpretation :=
          "Sentiment " ++
            (if sig then "significantly predicts" else "does not significantly predict") ++
            " price movements " ++ toString lag ++ " days ahead (accuracy: " ++
            o.fmt1 acc ++ "%)" }

/-- `analyze_leading_indicator` (lines 189-274).  `sort_values('date')` on
the column-less frame built from an empty price list raises `KeyError`
before the length guard runs; as in the price-change analysis, merging a
column-less (empty) sentiment frame also raises `KeyError`. -/
def analyze_leading_indicator (o : Oracle) (threshold : ℚ)
    (sentiment_data : List SentimentItem) (price_data : List PricePoint)
    (lag_days : ℕ) : Except String LeadingOutcome :=
  match prepare_sentiment_dataframe sentiment_data with
  | .error e => .error e
  | .ok sdf =>
    if price_data.isEmpty then .error "KeyError: date"
    else if price_data.length < lag_days + 2 then
      .ok (.err "Insufficient data for leading indicator analysis")
    else if sdf.isEmpty then .error "KeyError: date"
    else .ok (leadingBody o threshold sdf price_data lag_days)

/-- The designated insufficient-data shape of a `CorrelationResult`. -/
def isInsufficient (r : CorrelationResult) : Prop :=
  r.correlation_coefficient = some 0 ∧ r.p_value = some 1 ∧
    r.is_significant = false ∧ r.sample_size = 0 ∧
    ∃ s, r.interpretation = "Analysis not possible: " ++ s

/-! ## Shared lemmas -/

theorem empty_result_insufficient (reason : String) :
    isInsufficient (empty_result reason) :=
  ⟨rfl, rfl, rfl, rfl, reason, rfl⟩

theorem sortByDate_eq_self {price : List PricePoint}
    (h : price.Pairwise fun a b => a.date < b.date) : sortByDate price = price :=
  List.Sorted.insertionSort_eq (h.imp fun hab => le_of_lt hab)

@[simp] theorem FVal.isNaN_real (q : ℚ) : (FVal.real q).isNaN = false := rfl

@[simp] theorem FVal.isNaN_posInf : FVal.posInf.isNaN = false := rfl

@[simp] theorem FVal.isNaN_negInf : FVal.negInf.isNaN = false := rfl

@[simp] theorem FVal.isNaN_nan : FVal.nan.isNaN = true := rfl

@[simp] theorem FVal.isFinite_real (q : ℚ) : (FVal.real q).isFinite = true := rfl

@[simp] theorem FVal.toQ_real (q : ℚ) : (FVal.real q).toQ = q := rfl

@[simp] theorem FVal.posB_real (q : ℚ) : (FVal.real q).posB = decide (0 < q) := rfl

theorem pearsonr_nan (o : Oracle) {xs : List ℚ} {ys : List FVal}
    (h : allEqual xs = true ∨
      ((ys.all fun v => v.isFinite) = true ∧ allEqual (ys.map FVal.toQ) = true)) :
    pearsonr o xs ys = (none, none) := by
  unfold pearsonr
  by_cases hf : (ys.any fun v => !v.isFinite) = true
  · rw [if_pos hf]
  · rw [if_neg hf]
    rcases h with h | ⟨_, h⟩
    · simp [h]
    · simp [h]

theorem futureChange_of_ne_zero {cur fut : ℚ} (h : cur ≠ 0) :
    futureChange cur fut = .real ((fut - cur) / cur * 100) := by
  unfold futureChange
  rw [if_neg h]

theorem pctChange_of_ne_zero {prev cur : ℚ} (h : prev ≠ 0) :
    pctChange prev cur = .real ((cur - prev) / prev * 100) := by
  unfold pctChange
  rw [if_neg h]

theorem pctChange_zero_pos {prev cur : ℚ} (h0 : prev = 0) (hpos : 0 < cur) :
    pctChange prev cur = .posInf := by
  unfold pctChange
  rw [if_pos h0, if_neg (ne_of_gt hpos), if_pos hpos]

theorem futureChange_zero_pos {cur fut : ℚ} (h0 : cur = 0) (hpos : 0 < fut) :
    futureChange cur fut = .posInf := by
  unfold futureChange
  rw [if_pos h0, if_neg (ne_of_gt hpos), if_pos hpos]

theorem laggedAux_length : ∀ (s f : List PricePoint),
    (laggedAux s f).length = s.length
  | [], _ => rfl
  | p :: rest, [] => by simp [laggedAux, laggedAux_length rest []]
  | p :: rest, q :: fs => by simp [laggedAux, laggedAux_length rest fs]

theorem priceChangeRows_of_ne_zero {price : List PricePoint}
    (hsort : price.Pairwise fun a b => a.date < b.date)
    (hnz : ∀ p ∈ price, p.price ≠ 0) :
    priceChangeRows price =
      (price.zip price.tail).map fun ab =>
        (ab.2.date, FVal.real ((ab.2.price - ab.1.price) / ab.1.price * 100)) := by
  unfold priceChangeRows
  rw [sortByDate_eq_self hsort]
  show (List.filter (fun m => !m.2.isNaN)
      ((price.zip price.tail).map fun ab => (ab.2.date, pctChange ab.1.price ab.2.price))) = _
  have hmap : ∀ ab ∈ price.zip price.tail,
      ((ab.2.date : Date), pctChange ab.1.price ab.2.price) =
        (ab.2.date, FVal.real ((ab.2.price - ab.1.price) / ab.1.price * 100)) := by
    intro ab hab
    obtain ⟨h1, _⟩ := List.of_mem_zip (by exact hab)
    rw [pctChange_of_ne_zero (hnz _ h1)]
  rw [List.map_congr_left hmap]
  rw [List.filter_eq_self.mpr]
  intro a ha
  obtain ⟨ab, _, rfl⟩ := List.mem_map.mp ha
  rfl

theorem laggedAux_getElem? :
    ∀ (s f : List PricePoint) (i : ℕ),
      (laggedAux s f)[i]? = (s[i]?).map fun p =>
        (p.date, match f[i]? with
          | some q => futureChange p.price q.price
          | none => FVal.nan)
  | [], _, _ => by simp [laggedAux]
  | p :: rest, [], 0 => by simp [laggedAux]
  | p :: rest, [], i + 1 => by
    simpa [laggedAux] using laggedAux_getElem? rest [] i
  | p :: rest, q :: fs, 0 => by simp [laggedAux]
  | p :: rest, q :: fs, i + 1 => by
    simpa [laggedAux] using laggedAux_getElem? rest fs i

theorem laggedAux_filter_of_ne_zero :
    ∀ (s f : List PricePoint), (∀ p ∈ s, p.price ≠ 0) →
      (laggedAux s f).filter (fun m => !m.2.isNaN) =
        (s.zip f).map fun ab =>
          (ab.1.date, FVal.real ((ab.2.price - ab.1.price) / ab.1.price * 100))
  | [], _, _ => by simp [laggedAux]
  | p :: rest, [], h => by
    have ih := laggedAux_filter_of_ne_zero rest []
      (fun q hq => h q (List.mem_cons_of_mem _ hq))
    simp only [List.zip_nil_right, List.map_nil] at ih
    simp [laggedAux, ih]
  | p :: rest, q :: fs, h => by
    have hp : p.price ≠ 0 := h p (List.mem_cons_self _ _)
    have ih := laggedAux_filter_of_ne_zero rest fs
      (fun x hx => h x (List.mem_cons_of_mem _ hx))
    simp [laggedAux, futureChange_of_ne_zero hp, ih]

theorem laggedChangeRows_filter {s : List PricePoint} (lag : ℕ)
    (hnz : ∀ p ∈ s, p.price ≠ 0) :
    (laggedChangeRows s lag).filter (fun m => !m.2.isNaN) =
      (s.zip (s.drop lag)).map fun ab =>
        (ab.1.date, FVal.real ((ab.2.price - ab.1.price) / ab.1.price * 100)) :=
  laggedAux_filter_of_ne_zero s (s.drop lag) hnz

@[simp] theorem innerJoin_nil_right {β : Type} (sdf : List DailySentimentPoint) :
    innerJoin sdf ([] : List (Date × β)) = [] := by
  simp [innerJoin]

@[simp] theorem innerJoin_nil_left {β : Type} (right : List (Date × β)) :
    innerJoin [] right = [] := rfl

theorem dailyBody_merged_small (o : Oracle) (t : ℚ)
    (sdf : List DailySentimentPoint) (price : List PricePoint)
    (h : (innerJoin sdf (price.map fun p => (p.date, p.price))).length < 3) :
    ∃ reason, dailyBody o t sdf price = empty_result reason := by
  simp only [dailyBody]
  split_ifs with h1
  · exact ⟨_, rfl⟩
  · exact ⟨_, rfl⟩

theorem calculate_daily_correlation_ok (o : Oracle) (t : ℚ)
    {S : List SentimentItem} {sdf : List DailySentimentPoint}
    (hprep : prepare_sentiment_dataframe S = .ok sdf) (P : List PricePoint) :
    calculate_daily_correlation o t S P = .ok (dailyBody o t sdf P) := by
  unfold calculate_daily_correlation
  rw [hprep]

@[simp] theorem priceChangeRows_nil : priceChangeRows [] = [] := rfl

@[simp] theorem priceChangeRows_singleton (p : PricePoint) :
    priceChangeRows [p] = [] := rfl

theorem calculate_price_change_correlation_ok (o : Oracle) (t : ℚ)
    {S : List SentimentItem} {sdf : List DailySentimentPoint}
    (hprep : prepare_sentiment_dataframe S = .ok sdf) (P : List PricePoint)
    (hp2 : ¬ (P.length < 2)) (hs : sdf.isEmpty = false) :
    calculate_price_change_correlation o t S P = .ok (priceChangeBody o t sdf P) := by
  unfold calculate_price_change_correlation
  rw [hprep]
  show (if P.length < 2 then Except.ok (empty_result "Need at least 2 days of price data")
      else if sdf.isEmpty = true then Except.error "KeyError: date"
      else Except.ok (priceChangeBody o t sdf P)) = _
  rw [if_neg hp2, if_neg (by simp [hs])]

theorem analyze_leading_indicator_ok (o : Oracle) (t : ℚ)
    {S : List SentimentItem} {sdf : List DailySentimentPoint}
    (hprep : prepare_sentiment_dataframe S = .ok sdf) (P : List PricePoint)
    (lag : ℕ) (hp : ¬ (P.length < lag + 2)) (hs : sdf.isEmpty = false) :
    analyze_leading_indicator o t S P lag = .ok (leadingBody o t sdf P lag) := by
  unfold analyze_leading_indicator
  rw [hprep]
  have hpe : P.isEmpty = false := by
    cases P with
    | nil => simp at hp
    | cons a l => rfl
  show (if P.isEmpty = true then Except.error "KeyError: date"
      else if P.length < lag + 2
        then Except.ok (LeadingOutcome.err "Insufficient data for leading indicator analysis")
      else if sdf.isEmpty = true then Except.error "KeyError: date"
      else Except.ok (leadingBody o t sdf P lag)) = _
  rw [if_neg (by simp [hpe]), if_neg hp, if_neg (by simp [hs])]

/-! ## Claim C1 -/

/-- **C1, counterexample.**  The claim says that on an aligned pair with
`n ≥ 3` whose price series has zero variance the operations return
`coefficient 0.0, p_value 1.0` and never propagate NaN.  On three sentiment
days `0.1, 0.2, 0.3` against a constant price `100` on the same three days,
`calculate_daily_correlation` passes the merged frame straight to
`scipy.stats.pearsonr`, which yields NaN on constant input: the returned
coefficient is NaN (`none`), not `0.0`. -/
theorem C1_counterexample :
    (calculate_daily_correlation oracle0 (1/20)
        [.dict ⟨.strNoT (some 1), some (1/10)⟩,
         .dict ⟨.strNoT (some 2), some (1/5)⟩,
         .dict ⟨.strNoT (some 3), some (3/10)⟩]
        [⟨1, 100⟩, ⟨2, 100⟩, ⟨3, 100⟩]).map (fun r => r.correlation_coefficient) =
      .ok none ∧ (none : Option ℚ) ≠ some 0 := by
  constructor
  · norm_num [calculate_daily_correlation, prepare_sentiment_dataframe,
      collectRecords, parseSentimentItem, dailyAggregate, dailyBody, innerJoin,
      List.insertionSort, List.orderedInsert, List.filterMap, List.find?,
      List.filter, pearsonr, allEqual, oracle0, FVal.isFinite, FVal.toQ,
      Except.map]
  · simp

/-- **C1 (amended).**  For every aligned pair with `n ≥ 3` in which the
sentiment column or the price/price-change column has zero variance, the
correlation operations do NOT define the coefficient as `0.0`: they propagate
the NaN pair that `scipy.stats.pearsonr` returns, so the result carries a NaN
coefficient and NaN p-value, `is_significant = false` (NaN compares false),
the actual sample size, and an interpretation that reports a "very weak
negative" correlation instead of noting the degenerate variance. -/
theorem C1_theorem (o : Oracle) (t : ℚ) (S : List SentimentItem)
    (P : List PricePoint) (sdf : List DailySentimentPoint)
    (hprep : prepare_sentiment_dataframe S = .ok sdf) :
    (3 ≤ (innerJoin sdf (P.map fun p => (p.date, p.price))).length →
      (allEqual ((innerJoin sdf (P.map fun p => (p.date, p.price))).map
          fun m => m.1.daily_avg_sentiment) = true ∨
        allEqual ((innerJoin sdf (P.map fun p => (p.date, p.price))).map
          fun m => m.2) = true) →
      ∃ r, calculate_daily_correlation o t S P = .ok r ∧
        r.correlation_coefficient = none ∧ r.p_value = none ∧
        r.is_significant = false ∧
        r.sample_size = (innerJoin sdf (P.map fun p => (p.date, p.price))).length ∧
        r.interpretation = interpret_correlation o none none false "daily_prices")
    ∧
    (3 ≤ (innerJoin sdf (priceChangeRows P)).length →
      (allEqual ((innerJoin sdf (priceChangeRows P)).map
          fun m => m.1.daily_avg_sentiment) = true ∨
        (((innerJoin sdf (priceChangeRows P)).map fun m => m.2).all
            (fun v => v.isFinite) = true ∧
          allEqual (((innerJoin sdf (priceChangeRows P)).map fun m => m.2).map
            FVal.toQ) = true)) →
      ∃ r, calculate_price_change_correlation o t S P = .ok r ∧
        r.correlation_coefficient = none ∧ r.p_value = none ∧
        r.is_significant = false ∧
        r.sample_size = (innerJoin sdf (priceChangeRows P)).length ∧
        r.interpretation = interpret_correlation o none none false "price_changes") := by
  constructor
  · intro hlen hvar
    have hs : sdf.isEmpty = false := by
      cases sdf with
      | nil => simp at hlen
      | cons a l => rfl
    have hp : P.isEmpty = false := by
      cases P with
      | nil => simp at hlen
      | cons a l => rfl
    have hnn : pearsonr o
        ((innerJoin sdf (P.map fun p => (p.date, p.price))).map
          fun m => m.1.daily_avg_sentiment)
        ((innerJoin sdf (P.map fun p => (p.date, p.price))).map
          fun m => FVal.real m.2) = (none, none) := by
      rcases hvar with h | h
      · exact pearsonr_nan o (.inl h)
      · refine pearsonr_nan o (.inr ⟨?_, ?_⟩)
        · simp only [List.all_eq_true, List.mem_map]
          rintro v ⟨m, _, rfl⟩
          rfl
        · simpa [List.map_map, Function.comp] using h
    rw [calculate_daily_correlation_ok o t hprep P]
    simp only [dailyBody, hs, hp, Bool.or_self, Bool.false_eq_true, if_false]
    rw [if_neg (by omega)]
    rw [hnn]
    exact ⟨_, rfl, rfl, rfl, rfl, rfl, rfl⟩
  · intro hlen hvar
    have hs : sdf.isEmpty = false := by
      cases sdf with
      | nil => simp at hlen
      | cons a l => rfl
    have hp2 : ¬ (P.length < 2) := by
      match P with
      | [] => simp at hlen
      | [p] => simp at hlen
      | p :: q :: rest => simp only [List.length_cons]; omega
    have hnn : pearsonr o
        ((innerJoin sdf (priceChangeRows P)).map fun m => m.1.daily_avg_sentiment)
        ((innerJoin sdf (priceChangeRows P)).map fun m => m.2) = (none, none) :=
      pearsonr_nan o hvar
    rw [calculate_price_change_correlation_ok o t hprep P hp2 hs]
    simp only [priceChangeBody]
    rw [if_neg (by omega)]
    rw [hnn]
    exact ⟨_, rfl, rfl, rfl, rfl, rfl, rfl⟩

/-- **C1 witness.**  The amended theorem applied at the concrete
constant-price input of the counterexample. -/
theorem C1_witness :
    3 ≤ (innerJoin ([⟨1, 1/10, 1⟩, ⟨2, 1/5, 1⟩, ⟨3, 3/10, 1⟩] : List DailySentimentPoint)
        (([⟨1, 100⟩, ⟨2, 100⟩, ⟨3, 100⟩] : List PricePoint).map
          fun p => (p.date, p.price))).length ∧
    ∃ r, calculate_daily_correlation oracle0 (1/20)
        [.dict ⟨.strNoT (some 1), some (1/10)⟩,
         .dict ⟨.strNoT (some 2), some (1/5)⟩,
         .dict ⟨.strNoT (some 3), some (3/10)⟩]
        [⟨1, 100⟩, ⟨2, 100⟩, ⟨3, 100⟩] = .ok r ∧
      r.correlation_coefficient = none ∧ r.p_value = none ∧
      r.is_significant = false ∧
      r.sample_size =
        (innerJoin ([⟨1, 1/10, 1⟩, ⟨2, 1/5, 1⟩, ⟨3, 3/10, 1⟩] : List DailySentimentPoint)
        (([⟨1, 100⟩, ⟨2, 100⟩, ⟨3, 100⟩] : List PricePoint).map
          fun p => (p.date, p.price))).length ∧
      r.interpretation = interpret_correlation oracle0 none none false "daily_prices" := by
  have hprep : prepare_sentiment_dataframe
      [.dict ⟨.strNoT (some 1), some (1/10)⟩,
       .dict ⟨.strNoT (some 2), some (1/5)⟩,
       .dict ⟨.strNoT (some 3), some (3/10)⟩] =
      .ok [⟨1, 1/10, 1⟩, ⟨2, 1/5, 1⟩, ⟨3, 3/10, 1⟩] := by
    norm_num [prepare_sentiment_dataframe, collectRecords, parseSentimentItem,
      dailyAggregate, List.insertionSort, List.orderedInsert, List.filter]
  have hlen : 3 ≤
      (innerJoin ([⟨1, 1/10, 1⟩, ⟨2, 1/5, 1⟩, ⟨3, 3/10, 1⟩] : List DailySentimentPoint)
      (([⟨1, 100⟩, ⟨2, 100⟩, ⟨3, 100⟩] : List PricePoint).map
        fun p => (p.date, p.price))).length := by
    norm_num [innerJoin, List.filterMap, List.find?]
  refine ⟨hlen, (C1_theorem oracle0 (1/20) _ _ _ hprep).1 hlen (.inr ?_)⟩
  norm_num [innerJoin, allEqual, List.filterMap, List.find?]

/-! ## Claim C2 -/

/-- **C2, counterexample.**  The claim says an aligned pair of length
`n ∈ {0,1,2}` yields the insufficient-data result with `sample_size = n`.
With sentiment on days 1 and 2 against prices on days 1, 2 and 3 the aligned
pair has length 2, but `_empty_result` hard-codes `sample_size = 0`, so the
returned sample size is `0`, not `2`. -/
theorem C2_counterexample :
    prepare_sentiment_dataframe
        [.dict ⟨.strNoT (some 1), some (1/10)⟩,
         .dict ⟨.strNoT (some 2), some (1/5)⟩] =
      .ok [⟨1, 1/10, 1⟩, ⟨2, 1/5, 1⟩] ∧
    (innerJoin ([⟨1, 1/10, 1⟩, ⟨2, 1/5, 1⟩] : List DailySentimentPoint)
        (([⟨1, 100⟩, ⟨2, 101⟩, ⟨3, 102⟩] : List PricePoint).map
          fun p => (p.date, p.price))).length = 2 ∧
    (calculate_daily_correlation oracle0 (1/20)
        [.dict ⟨.strNoT (some 1), some (1/10)⟩,
         .dict ⟨.strNoT (some 2), some (1/5)⟩]
        [⟨1, 100⟩, ⟨2, 101⟩, ⟨3, 102⟩]).map (fun r => r.sample_size) = .ok 0 ∧
    (0 : ℕ) ≠ 2 := by
  refine ⟨?_, ?_, ?_, by omega⟩
  · norm_num [prepare_sentiment_dataframe, collectRecords, parseSentimentItem,
      dailyAggregate, List.insertionSort, List.orderedInsert, List.filter]
  · norm_num [innerJoin, List.filterMap, List.find?]
  · norm_num [calculate_daily_correlation, prepare_sentiment_dataframe,
      collectRecords, parseSentimentItem, dailyAggregate, dailyBody, innerJoin,
      List.insertionSort, List.orderedInsert, List.filterMap, List.find?,
      List.filter, empty_result, Except.map]

/-- **C2 (amended).**  For inputs whose sentiment records parse without
raising, whenever the aligned (inner-joined) pair has length `n < 3` the
correlation operations return the designated insufficient-data
`CorrelationResult` — `coefficient = 0.0`, `p_value = 1.0`,
`is_significant = false`, interpretation `"Analysis not possible: <reason>"`
— but with `sample_size = 0` regardless of `n`, and
`calculate_price_change_correlation` only does so when the prepared
sentiment frame is nonempty or the price list is shorter than 2 (a
column-less sentiment frame otherwise makes its merge raise `KeyError`). -/
theorem C2_theorem (o : Oracle) (t : ℚ) (S : List SentimentItem)
    (P : List PricePoint) (sdf : List DailySentimentPoint)
    (hprep : prepare_sentiment_dataframe S = .ok sdf) :
    ((innerJoin sdf (P.map fun p => (p.date, p.price))).length < 3 →
      ∃ r, calculate_daily_correlation o t S P = .ok r ∧ isInsufficient r)
    ∧
    ((sdf ≠ [] ∨ P.length < 2) →
      (innerJoin sdf (priceChangeRows P)).length < 3 →
      ∃ r, calculate_price_change_correlation o t S P = .ok r ∧ isInsufficient r) := by
  constructor
  · intro hlen
    rw [calculate_daily_correlation_ok o t hprep P]
    obtain ⟨reason, hr⟩ := dailyBody_merged_small o t sdf P hlen
    exact ⟨_, by rw [hr], empty_result_insufficient _⟩
  · intro hne hlen
    by_cases hp2 : P.length < 2
    · refine ⟨empty_result "Need at least 2 days of price data", ?_,
        empty_result_insufficient _⟩
      unfold calculate_price_change_correlation
      rw [hprep]
      show (if P.length < 2 then _ else _) = _
      rw [if_pos hp2]
    · have hs : sdf.isEmpty = false := by
        cases sdf with
        | nil => exact absurd rfl (hne.resolve_right hp2)
        | cons a l => rfl
      rw [calculate_price_change_correlation_ok o t hprep P hp2 hs]
      refine ⟨_, rfl, ?_⟩
      simp only [priceChangeBody]
      rw [if_pos hlen]
      exact empty_result_insufficient _

/-- **C2 witness.**  The amended theorem applied at the two-overlapping-day
input of the counterexample. -/
theorem C2_witness :
    (innerJoin ([⟨1, 1/10, 1⟩, ⟨2, 1/5, 1⟩] : List DailySentimentPoint)
        (([⟨1, 100⟩, ⟨2, 101⟩, ⟨3, 102⟩] : List PricePoint).map
          fun p => (p.date, p.price))).length < 3 ∧
    ∃ r, calculate_daily_correlation oracle0 (1/20)
        [.dict ⟨.strNoT (some 1), some (1/10)⟩,
         .dict ⟨.strNoT (some 2), some (1/5)⟩]
        [⟨1, 100⟩, ⟨2, 101⟩, ⟨3, 102⟩] = .ok r ∧ isInsufficient r := by
  have hprep : prepare_sentiment_dataframe
      [.dict ⟨.strNoT (some 1), some (1/10)⟩,
       .dict ⟨.strNoT (some 2), some (1/5)⟩] =
      .ok [⟨1, 1/10, 1⟩, ⟨2, 1/5, 1⟩] := by
    norm_num [prepare_sentiment_dataframe, collectRecords, parseSentimentItem,
      dailyAggregate, List.insertionSort, List.orderedInsert, List.filter]
  have hlen : (innerJoin ([⟨1, 1/10, 1⟩, ⟨2, 1/5, 1⟩] : List DailySentimentPoint)
      (([⟨1, 100⟩, ⟨2, 101⟩, ⟨3, 102⟩] : List PricePoint).map
        fun p => (p.date, p.price))).length < 3 := by
    norm_num [innerJoin, List.filterMap, List.find?]
  exact ⟨hlen, (C2_theorem oracle0 (1/20) _ _ _ hprep).1 hlen⟩

/-! ## Claim C3 -/

/-- **C3, counterexample.**  The claim says that every change computation
dividing by a non-positive price is excluded.  The code has no such handling:
the change over a negative base price `-50` is computed and kept as an
ordinary value `-150`, and a zero base price produces an infinity that
survives `dropna` — in the percent-change derivation and in the lagged
future-change derivation alike. -/
theorem C3_counterexample :
    priceChangeRows [⟨1, -50⟩, ⟨2, 25⟩] = [(2, .real (-150))] ∧
    priceChangeRows [⟨1, 0⟩, ⟨2, 100⟩] = [(2, .posInf)] ∧
    (laggedChangeRows (sortByDate [⟨1, 0⟩, ⟨2, 100⟩, ⟨3, 110⟩]) 1).filter
      (fun m => !m.2.isNaN) = [(1, .posInf), (2, .real 10)] := by
  refine ⟨?_, ?_, ?_⟩ <;>
    norm_num [priceChangeRows, laggedChangeRows, laggedAux, sortByDate,
      List.insertionSort, List.orderedInsert, pctChange, futureChange,
      List.filter]

/-- **C3 (amended).**  Non-positive prices receive no special treatment in
the change derivations: (i) when every price is nonzero — negative ones
included — no point is excluded at all and each change is the plain formula
value, so changes dividing by negative prices are kept; (ii) a change whose
base price is `0` against a positive later price is kept as `+inf`, i.e. the
division by zero happens silently, in both the percent-change and the lagged
future-change series; (iii) only `NaN` rows are dropped, e.g. a `0/0` pair
disappears without any report. -/
theorem C3_theorem (price : List PricePoint)
    (hsort : price.Pairwise fun a b => a.date < b.date) :
    ((∀ p ∈ price, p.price ≠ 0) →
      priceChangeRows price = (price.zip price.tail).map fun ab =>
        (ab.2.date, FVal.real ((ab.2.price - ab.1.price) / ab.1.price * 100)))
    ∧
    (∀ i, ∀ hi : i + 1 < price.length,
      (price.get ⟨i, by omega⟩).price = 0 → 0 < (price.get ⟨i+1, hi⟩).price →
      ((price.get ⟨i+1, hi⟩).date, FVal.posInf) ∈ priceChangeRows price)
    ∧
    (∀ lag i, ∀ hi : i + lag < price.length,
      (price.get ⟨i, by omega⟩).price = 0 → 0 < (price.get ⟨i+lag, hi⟩).price →
      ((price.get ⟨i, by omega⟩).date, FVal.posInf) ∈
        (laggedChangeRows (sortByDate price) lag).filter fun m => !m.2.isNaN)
    ∧
    priceChangeRows [⟨1, 0⟩, ⟨2, 0⟩] = [] := by
  refine ⟨priceChangeRows_of_ne_zero hsort, ?_, ?_, by
    norm_num [priceChangeRows, sortByDate, List.insertionSort,
      List.orderedInsert, pctChange, List.filter]⟩
  · intro i hi h0 hpos
    unfold priceChangeRows
    rw [sortByDate_eq_self hsort]
    show _ ∈ List.filter _
      ((price.zip price.tail).map fun ab => (ab.2.date, pctChange ab.1.price ab.2.price))
    have hzlen : i < (price.zip price.tail).length := by
      simp only [List.length_zip, List.length_tail]
      omega
    have hz : (price.zip price.tail).get ⟨i, hzlen⟩ =
        (price.get ⟨i, by omega⟩, price.get ⟨i+1, hi⟩) := by
      simp only [List.get_eq_getElem, List.getElem_zip, List.getElem_tail]
    refine List.mem_filter.mpr ⟨List.mem_map.mpr
      ⟨(price.get ⟨i, by omega⟩, price.get ⟨i+1, hi⟩), ?_, ?_⟩, rfl⟩
    · rw [← hz]
      exact List.get_mem _ _ hzlen
    · show ((price.get ⟨i+1, hi⟩).date,
        pctChange (price.get ⟨i, by omega⟩).price (price.get ⟨i+1, hi⟩).price) = _
      rw [pctChange_zero_pos h0 hpos]
  · intro lag i hi h0 hpos
    rw [sortByDate_eq_self hsort]
    have hil : i < price.length := by omega
    have hil2 : lag + i < price.length := by omega
    have hget : (laggedChangeRows price lag)[i]? =
        some ((price.get ⟨i, hil⟩).date,
          futureChange (price.get ⟨i, hil⟩).price (price.get ⟨i+lag, hi⟩).price) := by
      unfold laggedChangeRows
      rw [laggedAux_getElem?, List.getElem?_eq_getElem hil]
      have hd : (price.drop lag)[i]? = some (price.get ⟨i+lag, hi⟩) := by
        rw [List.getElem?_drop, Nat.add_comm lag i, List.getElem?_eq_getElem hi]
        simp only [List.get_eq_getElem]
      rw [hd]
      simp only [List.get_eq_getElem, Option.map_some']
    have hfc : futureChange (price.get ⟨i, hil⟩).price
        (price.get ⟨i+lag, hi⟩).price = FVal.posInf :=
      futureChange_zero_pos h0 hpos
    obtain ⟨hl, he⟩ := List.getElem?_eq_some.mp hget
    have hmem := List.getElem_mem hl
    rw [he, hfc] at hmem
    exact List.mem_filter.mpr ⟨hmem, rfl⟩

/-- **C3 witness.**  The amended theorem applied to the concrete series with
a negative price: the change dividing by `-50` is computed, not excluded. -/
theorem C3_witness :
    (∀ p ∈ ([⟨1, -50⟩, ⟨2, 25⟩] : List PricePoint), p.price ≠ 0) ∧
    priceChangeRows [⟨1, -50⟩, ⟨2, 25⟩] =
      (([⟨1, -50⟩, ⟨2, 25⟩] : List PricePoint).zip
          ([⟨1, -50⟩, ⟨2, 25⟩] : List PricePoint).tail).map fun ab =>
        (ab.2.date, FVal.real ((ab.2.price - ab.1.price) / ab.1.price * 100)) := by
  have hsort : ([⟨1, -50⟩, ⟨2, 25⟩] : List PricePoint).Pairwise
      (fun a b => a.date < b.date) := by
    simp [List.pairwise_cons]
  have hne : ∀ p ∈ ([⟨1, -50⟩, ⟨2, 25⟩] : List PricePoint), p.price ≠ 0 := by
    intro p hp
    rcases List.mem_cons.mp hp with rfl | hp
    · norm_num
    · rcases List.mem_cons.mp hp with rfl | hp
      · norm_num
      · simp at hp
  exact ⟨hne, (C3_theorem _ hsort).1 hne⟩

/-! ## Claim C4 -/

/-- **C4 (code bug).**  The claim — matching the spec — says a record with a
missing or unparsable timestamp is skipped and the call never fails.  The
code only wraps the `strptime` branch (strings without `'T'`) in
`try/except`; a string that contains `'T'` but is not valid ISO-8601 (e.g.
`'TBD'`) reaches `datetime.fromisoformat`, whose `ValueError` propagates and
aborts the whole call.  Missing timestamps and unparsable strings without
`'T'` are indeed skipped. -/
theorem C4_theorem :
    prepare_sentiment_dataframe [.dict ⟨.strT none, some (1/2)⟩] =
      .error "ValueError: fromisoformat" ∧
    calculate_daily_correlation oracle0 (1/20)
        [.dict ⟨.strT none, some (1/2)⟩] [⟨1, 100⟩] =
      .error "ValueError: fromisoformat" ∧
    prepare_sentiment_dataframe
        [.dict ⟨.absent, some (1/2)⟩, .dict ⟨.strNoT none, some (1/3)⟩,
         .dict ⟨.strNoT (some 3), some (1/4)⟩] = .ok [⟨3, 1/4, 1⟩] := by
  refine ⟨?_, ?_, ?_⟩ <;>
    norm_num [prepare_sentiment_dataframe, collectRecords, parseSentimentItem,
      calculate_daily_correlation, dailyAggregate, List.insertionSort,
      List.orderedInsert, List.filter]

/-! ## Claim C5 -/

/-- **C5, counterexample.**  The claim covers every price series, and for
`lag_days >= len - 1` it promises an empty result.  The empty price series
satisfies that premise for every positive lag (`len - 1 = -1`), yet the code
returns no result at all: `pd.DataFrame([])` has no `'date'` column, so the
`sort_values('date')` on line 216 raises `KeyError` before the length guard
runs — the call raises instead of yielding an empty result or the
insufficient-data error dict. -/
theorem C5_counterexample :
    analyze_leading_indicator oracle0 (1/20)
        [.dict ⟨.strNoT (some 1), some (1/2)⟩] ([] : List PricePoint) 1 =
      .error "KeyError: date" ∧
    (Except.error "KeyError: date" : Except String LeadingOutcome) ≠
      .ok (.err "Insufficient data for leading indicator analysis") := by
  constructor
  · norm_num [analyze_leading_indicator, prepare_sentiment_dataframe,
      collectRecords, parseSentimentItem, dailyAggregate, List.insertionSort,
      List.orderedInsert, List.filter]
  · simp

/-- **C5 (amended).**  For a date-sorted, positively-priced series of length
`len` and lag `lag ≥ 1`: the derived lagged future-change series (the
non-NaN rows of the `future_change_pct` column) has length `len - lag`
(truncated subtraction, i.e. `max(0, len - lag)`), its `i`-th point is
`(date[i], (price[i+lag] - price[i]) / price[i] * 100)` — so the last `lag`
points are dropped — and when `lag >= len - 1` (equivalently
`len < lag + 2`) `analyze_leading_indicator` refuses with the
insufficient-data error before producing any series, PROVIDED the price
series is nonempty: on the empty price series the call instead raises
`KeyError` from `sort_values('date')` on the column-less frame, so no
result — empty or otherwise — is returned. -/
theorem C5_theorem (price : List PricePoint) (lag : ℕ) (hlag : 1 ≤ lag)
    (hsort : price.Pairwise fun a b => a.date < b.date)
    (hpos : ∀ p ∈ price, 0 < p.price) :
    ((laggedChangeRows (sortByDate price) lag).filter fun m => !m.2.isNaN).length
        = price.length - lag
    ∧ (∀ i, ∀ hi : i + lag < price.length,
        ((laggedChangeRows (sortByDate price) lag).filter fun m => !m.2.isNaN)[i]? =
          some ((price.get ⟨i, by omega⟩).date,
            FVal.real (((price.get ⟨i+lag, hi⟩).price - (price.get ⟨i, by omega⟩).price)
              / (price.get ⟨i, by omega⟩).price * 100)))
    ∧ (∀ (o : Oracle) (t : ℚ) (S : List SentimentItem)
        (sdf : List DailySentimentPoint),
        prepare_sentiment_dataframe S = .ok sdf →
        price ≠ [] → price.length < lag + 2 →
        analyze_leading_indicator o t S price lag =
          .ok (.err "Insufficient data for leading indicator analysis"))
    ∧ (∀ (o : Oracle) (t : ℚ) (S : List SentimentItem)
        (sdf : List DailySentimentPoint),
        prepare_sentiment_dataframe S = .ok sdf →
        analyze_leading_indicator o t S ([] : List PricePoint) lag =
          .error "KeyError: date") := by
  have hnz : ∀ p ∈ price, p.price ≠ 0 := fun p hp => ne_of_gt (hpos p hp)
  rw [sortByDate_eq_self hsort]
  have hfilter := laggedChangeRows_filter (s := price) lag hnz
  refine ⟨?_, ?_, ?_, ?_⟩
  · rw [hfilter, List.length_map, List.length_zip, List.length_drop]
    exact min_eq_right (Nat.sub_le _ _)
  · intro i hi
    rw [hfilter, List.getElem?_map]
    have hz : (price.zip (price.drop lag))[i]? =
        some (price.get ⟨i, by omega⟩, price.get ⟨i+lag, hi⟩) := by
      refine List.getElem?_zip_eq_some.mpr ⟨?_, ?_⟩
      · rw [List.getElem?_eq_getElem (by omega : i < price.length)]
        simp only [List.get_eq_getElem]
      · rw [List.getElem?_drop, Nat.add_comm lag i, List.getElem?_eq_getElem hi]
        simp only [List.get_eq_getElem]
    rw [hz, Option.map_some']
  · intro o t S sdf hprep hne hsmall
    unfold analyze_leading_indicator
    rw [hprep]
    have hpe : price.isEmpty = false := by
      cases price with
      | nil => exact absurd rfl hne
      | cons a l => rfl
    show (if price.isEmpty = true then Except.error "KeyError: date"
        else if price.length < lag + 2
          then Except.ok (LeadingOutcome.err "Insufficient data for leading indicator analysis")
        else if sdf.isEmpty = true then Except.error "KeyError: date"
        else Except.ok (leadingBody o t sdf price lag)) = _
    rw [if_neg (by simp [hpe]), if_pos hsmall]
  · intro o t S sdf hprep
    unfold analyze_leading_indicator
    rw [hprep]
    rfl

/-- **C5 witness.**  The length clause applied to a three-day series at
lag 1: two lagged points remain. -/
theorem C5_witness :
    ((laggedChangeRows (sortByDate [⟨1, 100⟩, ⟨2, 110⟩, ⟨3, 121⟩]) 1).filter
        fun m => !m.2.isNaN).length =
      ([⟨1, 100⟩, ⟨2, 110⟩, ⟨3, 121⟩] : List PricePoint).length - 1 := by
  refine (C5_theorem _ 1 (by omega) ?_ ?_).1
  · simp [List.pairwise_cons]
  · intro p hp
    rcases List.mem_cons.mp hp with rfl | hp
    · norm_num
    · rcases List.mem_cons.mp hp with rfl | hp
      · norm_num
      · rcases List.mem_cons.mp hp with rfl | hp
        · norm_num
        · simp at hp

/-! ## Claim C6 -/

theorem predictionAccuracy_eq (c t : ℕ) (h : 0 < t) :
    predictionAccuracy c t = 100 * (c : ℚ) / (t : ℚ) := by
  unfold predictionAccuracy
  rw [if_pos h]
  ring

theorem predictionAccuracy_self (t : ℕ) (h : 0 < t) :
    predictionAccuracy t t = 100 := by
  unfold predictionAccuracy
  rw [if_pos h, div_self (Nat.cast_ne_zero.mpr (Nat.pos_iff_ne_zero.mp h)), one_mul]

theorem correctPrediction_of_agree {m : DailySentimentPoint × FVal}
    (h : (1 : ℚ)/10 < m.1.daily_avg_sentiment ↔ m.2.posB = true) :
    correctPrediction m = true := by
  unfold correctPrediction
  by_cases hb : (1 : ℚ)/10 < m.1.daily_avg_sentiment
  · rw [decide_eq_true hb, h.mp hb]
    rfl
  · have hp : m.2.posB = false := by
      cases hpb : m.2.posB
      · rfl
      · exact absurd (h.mpr hpb) hb
    rw [decide_eq_false hb, hp]
    rfl

/-- **C6.**  On an aligned sentiment/future-change pair of length ≥ 3,
`analyze_leading_indicator` counts a point as a correct prediction exactly
when `(average_score > 0.1 and future_change_pct > 0)` or
`(not average_score > 0.1 and not future_change_pct > 0)`
(`correctPrediction`), returns
`prediction_accuracy = 100 * correct / total` with `total` the aligned
length, and whenever the 0.1-thresholded sentiment direction agrees with the
sign of the future change at every aligned point the accuracy is exactly
`100`. -/
theorem C6_theorem (o : Oracle) (t : ℚ) (S : List SentimentItem)
    (P : List PricePoint) (lag : ℕ) (sdf : List DailySentimentPoint)
    (merged : List (DailySentimentPoint × FVal))
    (hprep : prepare_sentiment_dataframe S = .ok sdf)
    (hs : sdf ≠ [])
    (hp : ¬ (P.length < lag + 2))
    (hmerged : merged = (innerJoin sdf (laggedChangeRows (sortByDate P) lag)).filter
      fun m => !m.2.isNaN)
    (hm : 3 ≤ merged.length) :
    ∃ res, analyze_leading_indicator o t S P lag = .ok (.ok res) ∧
      res.predictions_correct = merged.countP correctPrediction ∧
      res.total_predictions = merged.length ∧
      res.prediction_accuracy =
        100 * (merged.countP correctPrediction : ℚ) / (merged.length : ℚ) ∧
      ((∀ m ∈ merged, ((1 : ℚ)/10 < m.1.daily_avg_sentiment ↔ m.2.posB = true)) →
        res.prediction_accuracy = 100) := by
  have hsE : sdf.isEmpty = false := by
    cases sdf with
    | nil => exact absurd rfl hs
    | cons a l => rfl
  rw [analyze_leading_indicator_ok o t hprep P lag hp hsE]
  simp only [leadingBody]
  rw [← hmerged]
  rw [if_neg (by omega)]
  refine ⟨_, rfl, rfl, rfl, ?_, ?_⟩
  · exact predictionAccuracy_eq _ _ (by omega)
  · intro hall
    have hc : merged.countP correctPrediction = merged.length :=
      List.countP_eq_length.mpr fun m hm' => correctPrediction_of_agree (hall m hm')
    have hfin : predictionAccuracy (merged.countP correctPrediction)
        merged.length = 100 := by
      rw [hc]
      exact predictionAccuracy_self _ (by omega)
    exact hfin

/-- **C6 witness.**  Four aligned days of bullish sentiment `0.5` against a
strictly rising five-day price series at lag 1: every prediction is correct
and the accuracy clause applies. -/
theorem C6_witness :
    ∃ res, analyze_leading_indicator oracle0 (1/20)
        [.dict ⟨.strNoT (some 1), some (1/2)⟩,
         .dict ⟨.strNoT (some 2), some (1/2)⟩,
         .dict ⟨.strNoT (some 3), some (1/2)⟩,
         .dict ⟨.strNoT (some 4), some (1/2)⟩]
        [⟨1, 100⟩, ⟨2, 110⟩, ⟨3, 121⟩, ⟨4, 133⟩, ⟨5, 146⟩] 1 = .ok (.ok res) ∧
      res.predictions_correct =
        ([(⟨1, 1/2, 1⟩, FVal.real 10), (⟨2, 1/2, 1⟩, FVal.real 10),
          (⟨3, 1/2, 1⟩, FVal.real (1200/121)), (⟨4, 1/2, 1⟩, FVal.real (1300/133))] :
          List (DailySentimentPoint × FVal)).countP correctPrediction ∧
      res.total_predictions =
        ([(⟨1, 1/2, 1⟩, FVal.real 10), (⟨2, 1/2, 1⟩, FVal.real 10),
          (⟨3, 1/2, 1⟩, FVal.real (1200/121)), (⟨4, 1/2, 1⟩, FVal.real (1300/133))] :
          List (DailySentimentPoint × FVal)).length ∧
      res.prediction_accuracy =
        100 * (([(⟨1, 1/2, 1⟩, FVal.real 10), (⟨2, 1/2, 1⟩, FVal.real 10),
          (⟨3, 1/2, 1⟩, FVal.real (1200/121)), (⟨4, 1/2, 1⟩, FVal.real (1300/133))] :
          List (DailySentimentPoint × FVal)).countP correctPrediction : ℚ) /
          (([(⟨1, 1/2, 1⟩, FVal.real 10), (⟨2, 1/2, 1⟩, FVal.real 10),
            (⟨3, 1/2, 1⟩, FVal.real (1200/121)), (⟨4, 1/2, 1⟩, FVal.real (1300/133))] :
            List (DailySentimentPoint × FVal)).length : ℚ) ∧
      ((∀ m ∈ ([(⟨1, 1/2, 1⟩, FVal.real 10), (⟨2, 1/2, 1⟩, FVal.real 10),
          (⟨3, 1/2, 1⟩, FVal.real (1200/121)), (⟨4, 1/2, 1⟩, FVal.real (1300/133))] :
          List (DailySentimentPoint × FVal)),
          ((1 : ℚ)/10 < m.1.daily_avg_sentiment ↔ m.2.posB = true)) →
        res.prediction_accuracy = 100) := by
  refine C6_theorem oracle0 (1/20) _ _ 1
    [⟨1, 1/2, 1⟩, ⟨2, 1/2, 1⟩, ⟨3, 1/2, 1⟩, ⟨4, 1/2, 1⟩] _ ?_ ?_ ?_ ?_ ?_
  · norm_num [prepare_sentiment_dataframe, collectRecords, parseSentimentItem,
      dailyAggregate, List.insertionSort, List.orderedInsert, List.filter]
  · simp
  · simp only [List.length_cons, List.length_nil]
    omega
  · norm_num [innerJoin, laggedChangeRows, laggedAux, sortByDate,
      List.insertionSort, List.orderedInsert, futureChange, List.filterMap,
      List.find?, List.filter]
  · simp

/-! ## Claim C7 -/

/-- **C7.**  For a date-sorted price series of length ≥ 2 with positive
prices, the derived percent-change series has length `len - 1`, its `i`-th
point is `(date[i+1], (price[i+1] - price[i]) / price[i] * 100)` (the first
input point has no predecessor and is dropped), and the concrete series
`[100, 110, 99]` yields `[10.0, -10.0]`. -/
theorem C7_theorem (price : List PricePoint) (hlen : 2 ≤ price.length)
    (hsort : price.Pairwise fun a b => a.date < b.date)
    (hpos : ∀ p ∈ price, 0 < p.price) :
    (priceChangeRows price).length = price.length - 1
    ∧ (∀ i, ∀ hi : i + 1 < price.length,
        (priceChangeRows price)[i]? =
          some ((price.get ⟨i+1, hi⟩).date,
            FVal.real (((price.get ⟨i+1, hi⟩).price - (price.get ⟨i, by omega⟩).price)
              / (price.get ⟨i, by omega⟩).price * 100)))
    ∧ priceChangeRows [⟨1, 100⟩, ⟨2, 110⟩, ⟨3, 99⟩] =
        [(2, .real 10), (3, .real (-10))] := by
  have hnz : ∀ p ∈ price, p.price ≠ 0 := fun p hp => ne_of_gt (hpos p hp)
  have heq := priceChangeRows_of_ne_zero hsort hnz
  refine ⟨?_, ?_, by
    norm_num [priceChangeRows, sortByDate, List.insertionSort,
      List.orderedInsert, pctChange, List.filter]⟩
  · rw [heq, List.length_map, List.length_zip, List.length_tail]
    exact min_eq_right (Nat.sub_le _ _)
  · intro i hi
    rw [heq, List.getElem?_map]
    have hz : (price.zip price.tail)[i]? =
        some (price.get ⟨i, by omega⟩, price.get ⟨i+1, hi⟩) := by
      refine List.getElem?_zip_eq_some.mpr ⟨?_, ?_⟩
      · rw [List.getElem?_eq_getElem (by omega : i < price.length)]
        simp only [List.get_eq_getElem]
      · have htl : i < price.tail.length := by
          rw [List.length_tail]
          omega
        rw [List.getElem?_eq_getElem htl]
        simp only [List.get_eq_getElem, List.getElem_tail]
    rw [hz, Option.map_some']

/-- **C7 witness.**  The concrete clause: prices `[100, 110, 99]` give
changes `[10.0, -10.0]`. -/
theorem C7_witness :
    priceChangeRows [⟨1, 100⟩, ⟨2, 110⟩, ⟨3, 99⟩] =
      [(2, .real 10), (3, .real (-10))] := by
  refine (C7_theorem [⟨1, 100⟩, ⟨2, 110⟩, ⟨3, 99⟩] ?_ ?_ ?_).2.2
  · simp only [List.length_cons, List.length_nil]
    omega
  · simp [List.pairwise_cons]
  · intro p hp
    rcases List.mem_cons.mp hp with rfl | hp
    · norm_num
    · rcases List.mem_cons.mp hp with rfl | hp
      · norm_num
      · rcases List.mem_cons.mp hp with rfl | hp
        · norm_num
        · simp at hp

/-! ## Claim C8 -/

/-- **C8.**  Daily aggregation produces exactly one point per distinct date
(its date column is duplicate-free), sorted ascending by date, covering
exactly the input dates; each point's average is the arithmetic mean of that
date's scores and its count is the number of that date's observations.  The
concrete observations `[(d1, 0.2), (d1, 0.4), (d2, -0.5)]` aggregate to
`[(d1, 0.3, 2), (d2, -0.5, 1)]`, the empty input yields the empty frame
without error, and `_prepare_sentiment_dataframe` applies exactly this
aggregation to the collected records. -/
theorem C8_theorem :
    (∀ recs : List (Date × ℚ),
      ((dailyAggregate recs).map fun p => p.date).Nodup ∧
      List.Sorted (· ≤ ·) ((dailyAggregate recs).map fun p => p.date) ∧
      (∀ d : Date, (d ∈ (dailyAggregate recs).map fun p => p.date) ↔
        d ∈ recs.map Prod.fst) ∧
      (∀ pt ∈ dailyAggregate recs,
        pt.headline_count = (recs.filter fun r => r.1 = pt.date).length ∧
        pt.daily_avg_sentiment =
          ((recs.filter fun r => r.1 = pt.date).map Prod.snd).sum /
            ((recs.filter fun r => r.1 = pt.date).length : ℚ)))
    ∧ dailyAggregate [(1, 1/5), (1, 2/5), (2, -(1/2))] =
        [⟨1, 3/10, 2⟩, ⟨2, -(1/2), 1⟩]
    ∧ prepare_sentiment_dataframe [] = .ok []
    ∧ (∀ (S : List SentimentItem) (recs : List (Date × ℚ)), S ≠ [] →
        collectRecords S = .ok recs →
        prepare_sentiment_dataframe S = .ok (dailyAggregate recs)) := by
  have hdates : ∀ recs : List (Date × ℚ),
      (dailyAggregate recs).map (fun p => p.date) =
        ((recs.map Prod.fst).dedup).insertionSort (· ≤ ·) := by
    intro recs
    unfold dailyAggregate
    rw [List.map_map]
    exact List.map_id _
  refine ⟨?_, ?_, rfl, ?_⟩
  · intro recs
    refine ⟨?_, ?_, ?_, ?_⟩
    · rw [hdates]
      exact (List.perm_insertionSort _ _).nodup_iff.mpr (List.nodup_dedup _)
    · rw [hdates]
      exact List.sorted_insertionSort _ _
    · intro d
      rw [hdates]
      simp [List.mem_dedup]
    · intro pt hpt
      simp only [dailyAggregate, List.mem_map] at hpt
      obtain ⟨d, hd, rfl⟩ := hpt
      refine ⟨?_, ?_⟩ <;> simp
  · norm_num [dailyAggregate, List.insertionSort, List.orderedInsert,
      List.filter]
  · intro S recs hne hcol
    cases S with
    | nil => exact absurd rfl hne
    | cons a l =>
      unfold prepare_sentiment_dataframe
      show (match collectRecords (a :: l) with
        | .error e => Except.error e
        | .ok recs => Except.ok (dailyAggregate recs)) = _
      rw [hcol]

/-- **C8 witness.**  The mean/count clause applied to the first aggregated
point of the concrete example. -/
theorem C8_witness :
    (⟨1, 3/10, 2⟩ : DailySentimentPoint).headline_count =
      (([(1, 1/5), (1, 2/5), (2, -(1/2))] : List (Date × ℚ)).filter
        (fun r => r.1 = (⟨1, 3/10, 2⟩ : DailySentimentPoint).date)).length ∧
    (⟨1, 3/10, 2⟩ : DailySentimentPoint).daily_avg_sentiment =
      ((([(1, 1/5), (1, 2/5), (2, -(1/2))] : List (Date × ℚ)).filter
        (fun r => r.1 = (⟨1, 3/10, 2⟩ : DailySentimentPoint).date)).map
          Prod.snd).sum /
      ((([(1, 1/5), (1, 2/5), (2, -(1/2))] : List (Date × ℚ)).filter
        (fun r => r.1 = (⟨1, 3/10, 2⟩ : DailySentimentPoint).date)).length : ℚ) := by
  have h := C8_theorem
  refine (h.1 [(1, 1/5), (1, 2/5), (2, -(1/2))]).2.2.2 ⟨1, 3/10, 2⟩ ?_
  rw [h.2.1]
  exact List.mem_cons_self _ _

/-! ## Claim C9 -/

/-- **C9.**  `_interpret_correlation` buckets the strength as "strong" when
`|r| ≥ 0.7`, "moderate" when `0.4 ≤ |r| < 0.7`, "weak" when
`0.2 ≤ |r| < 0.4` and "very weak" otherwise, describes the direction as
"positive" exactly when `r > 0` and "negative" otherwise, and the generated
interpretation string opens with exactly these two words in both the
significant and the non-significant branch. -/
theorem C9_theorem (r : ℚ) :
    ((7 : ℚ)/10 ≤ |r| → strengthOf (some r) = "strong") ∧
    ((2 : ℚ)/5 ≤ |r| → |r| < 7/10 → strengthOf (some r) = "moderate") ∧
    ((1 : ℚ)/5 ≤ |r| → |r| < 2/5 → strengthOf (some r) = "weak") ∧
    (|r| < 1/5 → strengthOf (some r) = "very weak") ∧
    (0 < r → directionOf (some r) = "positive") ∧
    (r ≤ 0 → directionOf (some r) = "negative") ∧
    (∀ (o : Oracle) (p : Option ℚ) (ty : String), ∃ rest,
      interpret_correlation o (some r) p true ty =
        "Statistically significant " ++ strengthOf (some r) ++ " " ++
          directionOf (some r) ++ " correlation (r=" ++ rest) ∧
    (∀ (o : Oracle) (p : Option ℚ) (ty : String), ∃ rest,
      interpret_correlation o (some r) p false ty =
        capitalizeStr (strengthOf (some r)) ++ " " ++ directionOf (some r) ++
          " correlation (r=" ++ rest) := by
  refine ⟨?_, ?_, ?_, ?_, ?_, ?_, ?_, ?_⟩
  · intro h1
    simp only [strengthOf]
    rw [if_pos h1]
  · intro h1 h2
    simp only [strengthOf]
    rw [if_neg (not_le.mpr h2), if_pos h1]
  · intro h1 h2
    simp only [strengthOf]
    rw [if_neg (not_le.mpr (lt_trans h2 (by norm_num))),
      if_neg (not_le.mpr h2), if_pos h1]
  · intro h1
    simp only [strengthOf]
    rw [if_neg (not_le.mpr (lt_trans h1 (by norm_num))),
      if_neg (not_le.mpr (lt_trans h1 (by norm_num))), if_neg (not_le.mpr h1)]
  · intro h1
    simp only [directionOf]
    rw [if_pos h1]
  · intro h1
    simp only [directionOf]
    rw [if_neg (not_lt.mpr h1)]
  · intro o p ty
    refine ⟨fmtO o.fmt3 (some r) ++ ", p=" ++ fmtO o.fmt4 p ++ "). " ++
      meaningOf (some r) ty ++
      ". This relationship is unlikely due to random chance.", ?_⟩
    simp [interpret_correlation, String.append_assoc]
  · intro o p ty
    refine ⟨fmtO o.fmt3 (some r) ++ "), but not statistically significant (p=" ++
      fmtO o.fmt4 p ++ "). Could be due to random chance.", ?_⟩
    simp [interpret_correlation, String.append_assoc]

/-- **C9 witness.**  The moderate bucket and positive direction at
`r = 0.5`. -/
theorem C9_witness :
    (2 : ℚ)/5 ≤ |(1 : ℚ)/2| ∧ |(1 : ℚ)/2| < 7/10 ∧
    strengthOf (some ((1 : ℚ)/2)) = "moderate" ∧
    0 < (1 : ℚ)/2 ∧ directionOf (some ((1 : ℚ)/2)) = "positive" := by
  have habs : |(1 : ℚ)/2| = 1/2 := abs_of_pos (by norm_num)
  refine ⟨by rw [habs]; norm_num, by rw [habs]; norm_num, ?_, by norm_num, ?_⟩
  · exact (C9_theorem (1/2)).2.1 (by rw [habs]; norm_num) (by rw [habs]; norm_num)
  · exact (C9_theorem (1/2)).2.2.2.2.1 (by norm_num)

/-! ## Claim C10 -/

theorem parseSentimentItem_score (tf : TimestampField) (d : Date)
    (hparse : tsDate tf = some d) (q : Option ℚ) :
    parseSentimentItem (.dict ⟨tf, q⟩) = .ok (some (d, q.getD 0)) := by
  cases tf with
  | absent => simp [tsDate] at hparse
  | strNoT p =>
    cases p with
    | none => simp [tsDate] at hparse
    | some e =>
      obtain rfl : e = d := by simpa [tsDate] using hparse
      rfl
  | strT p =>
    cases p with
    | none => simp [tsDate] at hparse
    | some e =>
      obtain rfl : e = d := by simpa [tsDate] using hparse
      rfl
  | nonString p =>
    cases p with
    | none => simp [tsDate] at hparse
    | some e =>
      obtain rfl : e = d := by simpa [tsDate] using hparse
      rfl

/-- **C10.**  A dict record whose timestamp parses to day `d` but which has
no `'sentiment_score'` key is NOT skipped: `item.get('sentiment_score', 0)`
substitutes `0`, so the record enters the record list exactly as if it
carried a score of `0` — the collected records are unchanged by replacing the
missing score with an explicit `0` — and a lone such record yields one daily
point for `d` with average `0` and count `1`. -/
theorem C10_theorem (tf : TimestampField) (d : Date)
    (hparse : tsDate tf = some d) :
    parseSentimentItem (.dict ⟨tf, none⟩) = .ok (some (d, 0)) ∧
    (∀ pre post : List SentimentItem,
      collectRecords (pre ++ .dict ⟨tf, none⟩ :: post) =
        collectRecords (pre ++ .dict ⟨tf, some 0⟩ :: post)) ∧
    prepare_sentiment_dataframe [.dict ⟨tf, none⟩] = .ok [⟨d, 0, 1⟩] := by
  refine ⟨parseSentimentItem_score tf d hparse none, ?_, ?_⟩
  · intro pre post
    induction pre with
    | nil =>
      show collectRecords (SentimentItem.dict ⟨tf, none⟩ :: post) =
        collectRecords (SentimentItem.dict ⟨tf, some 0⟩ :: post)
      simp only [collectRecords, parseSentimentItem_score tf d hparse]
      rfl
    | cons a l ih =>
      simp only [List.cons_append, collectRecords, List.append_eq]
      rw [ih]
  · have h1 : collectRecords [.dict ⟨tf, none⟩] = .ok [(d, 0)] := by
      simp only [collectRecords, parseSentimentItem_score tf d hparse]
      rfl
    unfold prepare_sentiment_dataframe
    show (match collectRecords [.dict ⟨tf, none⟩] with
      | .error e => Except.error e
      | .ok recs => Except.ok (dailyAggregate recs)) = _
    rw [h1]
    show Except.ok (dailyAggregate [(d, 0)]) = _
    norm_num [dailyAggregate, List.insertionSort, List.orderedInsert,
      List.filter]

/-- **C10 witness.**  The theorem applied to a record with a parsable plain
date and a missing score. -/
theorem C10_witness :
    parseSentimentItem (.dict ⟨.strNoT (some 5), none⟩) = .ok (some (5, 0)) ∧
    prepare_sentiment_dataframe [.dict ⟨.strNoT (some 5), none⟩] =
      .ok [⟨5, 0, 1⟩] := by
  exact ⟨(C10_theorem (.strNoT (some 5)) 5 rfl).1,
    (C10_theorem (.strNoT (some 5)) 5 rfl).2.2⟩

end BitcoinSentiment
